import Mathlib

/-!
Shallow embedding of the Intelligent-Content-API backend
(FastAPI + SQLAlchemy + httpx), covering:

* `src/app/core/security.py`   — password hashing / verification, JWT issue;
* `src/app/core/config.py`     — the `Settings` object and its declared fields;
* `src/app/services/llm_service.py` — `query_model` and `analyze_content`;
* `src/app/api/v1.py`          — `get_current_user`, `register_user`,
  `login_for_access_token`, `create_content`, `read_content_by_id`,
  `delete_content`;
* `src/app/models/{user,content}.py` and `src/app/schemas/{user,content}.py`.

Conventions of the embedding:

* Python strings used as passwords are modelled as `List Char` (`PyStr`),
  so that Python slicing `password[:72]` is `List.take 72` and
  `password.encode("utf-8")` is character-by-character UTF-8 encoding.
* Fallible Python code is `Except PyErr _`; an uncaught Python exception
  escaping a request handler is the `ApiError.unhandled` outcome
  (FastAPI turns it into a 500 response), while a raised
  `fastapi.HTTPException(status_code, detail)` is `ApiError.http`.
* JSON values returned by the enrichment provider are the inductive `J`;
  JSON numbers are modelled as rationals.
* The bcrypt primitive itself is an external library; theorems quantify
  over an arbitrary digest function `bc : List Nat → String` applied to
  the (at most 72) input bytes that passlib's bcrypt handler actually
  feeds to the primitive.
-/

/-- A Python exception relevant to this code base. -/
inductive PyErr where
  | attributeError (attr : String)
  | typeError (msg : String)
  | valueError (msg : String)
deriving DecidableEq, Repr

/-- A JSON value, as decoded by `response.json()` in `query_model`
(`src/app/services/llm_service.py`).  Numbers are modelled as rationals. -/
inductive J where
  | null
  | bool (v : Bool)
  | num (v : Rat)
  | str (v : String)
  | arr (items : List J)
  | obj (fields : List (String × J))

/-- Python truthiness (`if x:`) for the JSON values above:
`None`, `False`, `0`, `""`, `[]` and the empty dict are falsy. -/
def J.truthy : J → Bool
  | .null => false
  | .bool v => v
  | .num v => v != 0
  | .str v => v != ""
  | .arr items => !items.isEmpty
  | .obj fields => !fields.isEmpty

/-- Python `isinstance(x, list)` on a JSON value. -/
def J.isList : J → Bool
  | .arr _ => true
  | _ => false

/-- Python `x.get(key, default)` — a method of `dict`; on any non-dict value
the attribute access raises `AttributeError`. -/
def J.dictGet (j : J) (key : String) (default : J) : Except PyErr J :=
  match j with
  | .obj fields => .ok (((fields.lookup key).getD default))
  | _ => .error (.attributeError "get")

/-- The `Sentiment` enum of `src/app/models/content.py`: member names
`POSITIVE`/`NEGATIVE`/`NEUTRAL` with values `"Positive"`/`"Negative"`/`"Neutral"`. -/
inductive Sentiment where
  | POSITIVE
  | NEGATIVE
  | NEUTRAL
deriving DecidableEq, Repr

/-- The `.value` attribute of each `Sentiment` member
(`src/app/models/content.py`, lines 27-29). -/
def Sentiment.value : Sentiment → String
  | .POSITIVE => "Positive"
  | .NEGATIVE => "Negative"
  | .NEUTRAL => "Neutral"

/-- Python's `Sentiment[name]` — enum lookup by member name; raises
`KeyError` (here: `none`) for any other name. -/
def sentimentMember (name : String) : Option Sentiment :=
  if name = "POSITIVE" then some .POSITIVE
  else if name = "NEGATIVE" then some .NEGATIVE
  else if name = "NEUTRAL" then some .NEUTRAL
  else none

/-- Python's `str.upper()` (ASCII suffices for the labels at issue). -/
def pyUpper (s : String) : String := s.map Char.toUpper

/-- A Python `str` used as a password: a sequence of unicode code points, so
that `password[:72]` is `List.take 72` and UTF-8 encoding is per-character. -/
abbrev PyStr := List Char

/-- UTF-8 encoding of one code point, as produced by Python's
`str.encode("utf-8")` (one to four bytes). -/
def charUtf8 (c : Char) : List Nat :=
  let n := c.toNat
  if n < 0x80 then [n]
  else if n < 0x800 then [0xC0 + n / 64, 0x80 + n % 64]
  else if n < 0x10000 then [0xE0 + n / 4096, 0x80 + (n / 64) % 64, 0x80 + n % 64]
  else [0xF0 + n / 262144, 0x80 + (n / 4096) % 64, 0x80 + (n / 64) % 64, 0x80 + n % 64]

/-- Python's `password.encode("utf-8")`: the concatenated per-character bytes. -/
def pyEncodeUtf8 (s : PyStr) : List Nat := (s.map charUtf8).flatten

/-- The bytes that passlib's bcrypt handler feeds to the bcrypt primitive for
input `p`: passlib's bcrypt backend has `truncate_size = 72` and by default
(`truncate_error = False`, as in the repository's plain
`CryptContext(schemes=["bcrypt"])`) silently truncates the UTF-8 encoded
secret to its first 72 bytes, for hashing and for verification alike. -/
def passlibBcryptInput (p : PyStr) : List Nat := (pyEncodeUtf8 p).take 72

/-- `pwd_context.hash` of `src/app/core/security.py`, with the bcrypt digest
abstracted as `bc` (theorems quantify over it). -/
def pwd_context_hash (bc : List Nat → String) (p : PyStr) : String :=
  bc (passlibBcryptInput p)

/-- `pwd_context.verify` of `src/app/core/security.py`: checks the stored
digest against the digest of the (passlib-truncated) candidate secret. -/
def pwd_context_verify (bc : List Nat → String) (p : PyStr) (hashed : String) : Bool :=
  hashed == bc (passlibBcryptInput p)

/-- `verify_password` (`src/app/core/security.py`, lines 13-15): delegates to
`pwd_context.verify` with the plain password untouched. -/
def verify_password (bc : List Nat → String) (plain_password : PyStr) (hashed_password : String) : Bool :=
  pwd_context_verify bc plain_password hashed_password

/-- The string that `get_password_hash` (`src/app/core/security.py`,
lines 17-25) passes to `pwd_context.hash`: the password itself, or its first
72 characters (Python slice `password[:72]`) when the UTF-8 encoding of the
password exceeds 72 bytes. -/
def get_password_hash_arg (password : PyStr) : PyStr :=
  if (pyEncodeUtf8 password).length > 72 then password.take 72 else password

/-- `get_password_hash` (`src/app/core/security.py`, lines 17-25). -/
def get_password_hash (bc : List Nat → String) (password : PyStr) : String :=
  pwd_context_hash bc (get_password_hash_arg password)

/-- The decimal digit characters of a natural number, most significant first:
the characters of Python's `str(n)` (and of Lean's `toString n`). -/
def decDigits (n : Nat) : List Char :=
  if h : n < 10 then [Char.ofNat (48 + n)]
  else decDigits (n / 10) ++ [Char.ofNat (48 + n % 10)]
  decreasing_by exact Nat.div_lt_self (by omega) (by omega)

/-- Python's `str(n)` for a non-negative integer `n` (decimal numeral). -/
def pyStrOfNat (n : Nat) : String := String.mk (decDigits n)

/-- Python's `int(s)` on a string, restricted to the unsigned-decimal shape
this service produces (`sub = str(user.id)`): parses a non-empty all-digit
string; anything else raises `ValueError` (here: `none`). -/
def pyIntNat (s : String) : Option Nat :=
  if s.data ≠ [] ∧ s.data.all Char.isDigit then
    some (s.data.foldl (fun n c => n * 10 + (c.toNat - 48)) 0)
  else none

/-- The runtime values of the `Settings` object (`src/app/core/config.py`)
that the embedded code reads. -/
structure SettingsV where
  SECRET_KEY : String
  ACCESS_TOKEN_EXPIRE_MINUTES : Nat
deriving DecidableEq, Repr

/-- The field names declared on the `Settings` class of
`src/app/core/config.py` (pydantic `BaseSettings`): any other attribute
access on `settings` raises `AttributeError`.  Note the LLM key field is
`GEMINI_API_KEY`; there is no `HUGGINGFACE_API_KEY` field. -/
def settingsAttrNames : List String :=
  ["DATABASE_URL", "SECRET_KEY", "ALGORITHM",
   "ACCESS_TOKEN_EXPIRE_MINUTES", "GEMINI_API_KEY"]

/-- A JWT as produced by `jose.jwt.encode` in `create_access_token`
(`src/app/core/security.py`): the claims this app sets (`sub`, `exp`) plus
the key it was signed with. -/
structure Jwt where
  sub : Option String
  exp : Nat
  key : String
deriving DecidableEq, Repr

/-- `create_access_token` (`src/app/core/security.py`, lines 29-48) called
with an explicit `expires_delta` (seconds), as `login_for_access_token`
does: payload `sub`, expiry `now + delta`, signed with `SECRET_KEY`. -/
def create_access_token (settings : SettingsV) (sub : Option String)
    (now expires_delta : Nat) : Jwt :=
  { sub := sub, exp := now + expires_delta, key := settings.SECRET_KEY }

/-- The bearer credential presented by a client: either a string that is not
a well-formed JWT at all, or a (decodable) token. -/
inductive Credential where
  | malformed (raw : String)
  | token (t : Jwt)
deriving DecidableEq, Repr

/-- `jose.jwt.decode(token, SECRET_KEY, algorithms=[ALGORITHM])`: yields the
payload when the token parses, the signature matches the key and the `exp`
claim has not passed; otherwise raises `JWTError` (here: `none` — jose's
`ExpiredSignatureError` is a `JWTError`). -/
def jwt_decode (cred : Credential) (key : String) (now : Nat) : Option (Option String) :=
  match cred with
  | .malformed _ => none
  | .token t => if t.key == key && now < t.exp then some t.sub else none

/-- A row of the `users` table (`src/app/models/user.py`): `is_active`
defaults to `True`, `created_at` to the insertion time. -/
structure UserRow where
  id : Nat
  email : String
  hashed_password : String
  is_active : Bool := true
  created_at : Nat := 0
deriving DecidableEq, Repr

/-- The credential store: the `users` table plus its auto-increment counter. -/
structure CredentialStore where
  users : List UserRow
  nextId : Nat
deriving DecidableEq, Repr

/-- The outcome of a request handler: a raised `HTTPException(status,
detail)`, or an uncaught Python exception (FastAPI answers 500). -/
inductive ApiError where
  | http (statusCode : Nat) (detail : String)
  | unhandled (e : PyErr)
deriving DecidableEq, Repr

/-- The `credentials_exception` of `get_current_user`
(`src/app/api/v1.py`, lines 34-38). -/
def credentials_exception : ApiError :=
  .http 401 "Could not validate credentials"

/-- `get_current_user` (`src/app/api/v1.py`, lines 25-67): decode the JWT
(any `JWTError`, including expiry, and a missing `sub` claim give the
`credentials_exception`), convert `sub` with Python `int()` (outside the
`try`, so a non-numeric `sub` raises an uncaught `ValueError`), look the
user up by id (absent: `credentials_exception`), and finally reject an
inactive user with a distinct `HTTPException(400, "Inactive user")`. -/
def get_current_user (users : List UserRow) (settings : SettingsV)
    (cred : Credential) (now : Nat) : Except ApiError UserRow :=
  match jwt_decode cred settings.SECRET_KEY now with
  | none => .error credentials_exception
  | some user_id? =>
    match user_id? with
    | none => .error credentials_exception
    | some user_id =>
      match pyIntNat user_id with
      | none => .error (.unhandled (.valueError user_id))
      | some uid =>
        match users.find? (fun u => u.id == uid) with
        | none => .error credentials_exception
        | some user =>
          if user.is_active then .ok user
          else .error (.http 400 "Inactive user")

/-- `register_user` (`src/app/api/v1.py`, lines 70-99): duplicate email →
`HTTPException(400, "Email already registered.")` before anything is
written; otherwise hash the password, insert the new row (with `is_active`
defaulted to true) and return it. -/
def register_user (bc : List Nat → String) (store : CredentialStore)
    (email : String) (password : PyStr) (now : Nat) :
    Except ApiError UserRow × CredentialStore :=
  match store.users.find? (fun u => u.email == email) with
  | some _ => (.error (.http 400 "Email already registered."), store)
  | none =>
    let new_user : UserRow :=
      { id := store.nextId, email := email,
        hashed_password := get_password_hash bc password,
        is_active := true, created_at := now }
    (.ok new_user, { users := store.users ++ [new_user], nextId := store.nextId + 1 })

/-- `login_for_access_token` (`src/app/api/v1.py`, lines 102-127): unknown
email and wrong password take the same branch and raise the very same
`HTTPException(401, "Incorrect email or password")`; on success a JWT with
`sub = str(user.id)` and the configured lifetime (minutes) is issued. -/
def login_for_access_token (bc : List Nat → String) (settings : SettingsV)
    (users : List UserRow) (email : String) (password : PyStr) (now : Nat) :
    Except ApiError Jwt :=
  match users.find? (fun u => u.email == email) with
  | none => .error (.http 401 "Incorrect email or password")
  | some user =>
    if verify_password bc password user.hashed_password then
      .ok (create_access_token settings (some (pyStrOfNat user.id)) now
            (settings.ACCESS_TOKEN_EXPIRE_MINUTES * 60))
    else .error (.http 401 "Incorrect email or password")

/-- The public attributes of the `httpx` module (httpx 0.2x).  httpx is an
HTTP client only: it exposes clients, request helpers, headers/URL/response
types and exception classes, and has never exported a `gather` coroutine
combinator (gathering lives in `asyncio`).  `await httpx.gather(...)` in
`analyze_content` (`src/app/services/llm_service.py`, line 80) therefore
raises `AttributeError` at runtime. -/
def httpxModuleAttrNames : List String :=
  ["AsyncClient", "Client", "Auth", "BasicAuth", "DigestAuth", "Cookies",
   "Headers", "Limits", "QueryParams", "Request", "Response", "Timeout",
   "URL", "codes", "delete", "get", "head", "options", "patch", "post",
   "put", "request", "stream", "HTTPError", "HTTPStatusError",
   "RequestError", "TransportError", "TimeoutException", "ConnectError",
   "ConnectTimeout", "ReadTimeout", "WriteTimeout", "PoolTimeout",
   "NetworkError", "ReadError", "WriteError", "CloseError", "ProxyError",
   "UnsupportedProtocol", "DecodingError", "TooManyRedirects",
   "CookieConflict", "StreamError", "InvalidURL", "main"]

/-- How the external Hugging Face endpoint behaves for one request: it may
time out, answer a 4xx/5xx status, answer a non-JSON body, make the client
raise some other exception (e.g. connection refused when unreachable), or
answer a decoded JSON document. -/
inductive ProviderBehavior where
  | timeout
  | httpStatusError (status : Nat) (body : String)
  | invalidJson
  | raises (msg : String)
  | ok (j : J)

/-- `query_model` (`src/app/services/llm_service.py`, lines 19-54).  The
`headers` dict is built from `settings.HUGGINGFACE_API_KEY` *before* the
`try` block; `Settings` declares no such field (`src/app/core/config.py`
declares `GEMINI_API_KEY`), so this attribute access raises
`AttributeError` if the coroutine ever runs.  Were the field present, the
`try/except` arms turn every failure behavior into `None` (logged only)
and a successful call into the decoded JSON. -/
def query_model (pb : String → J → ProviderBehavior) (model_id : String)
    (payload : J) : Except PyErr (Option J) :=
  if settingsAttrNames.contains "HUGGINGFACE_API_KEY" then
    match pb model_id payload with
    | .timeout => .ok none
    | .httpStatusError _ _ => .ok none
    | .invalidJson => .ok none
    | .raises _ => .ok none
    | .ok j => .ok (some j)
  else .error (.attributeError "HUGGINGFACE_API_KEY")

/-- The model ids of `src/app/services/llm_service.py`, lines 12-13. -/
def SUMMARIZATION_MODEL : String := "facebook/bart-large-cnn"

/-- See `SUMMARIZATION_MODEL`. -/
def SENTIMENT_MODEL : String := "cardiffnlp/twitter-roberta-base-sentiment-latest"

/-- The `summary_payload` of `analyze_content`. -/
def summaryPayload (raw_text : String) : J :=
  .obj [("inputs", .str raw_text),
        ("parameters", .obj [("min_length", .num 30), ("max_length", .num 150)])]

/-- The `sentiment_payload` of `analyze_content`. -/
def sentimentPayload (raw_text : String) : J :=
  .obj [("inputs", .str raw_text)]

/-- The summarization branch of `analyze_content`
(`src/app/services/llm_service.py`, lines 86-90): guard
`summary_result and isinstance(summary_result, list) and
summary_result[0].get('summary_text')`, then extract that value.
`.get` on a non-dict first element raises `AttributeError`. -/
def processSummaryResult (summary_result : Option J) : Except PyErr (Option J) :=
  match summary_result with
  | some (J.arr (first :: _)) => do
    let v ← first.dictGet "summary_text" J.null
    if v.truthy then .ok (some v) else .ok none
  | _ => .ok none

/-- The scoring loop of `analyze_content`
(`src/app/services/llm_service.py`, lines 98-104): track the classification
with the highest `score` (default score 0, initial best −1); a non-dict
element raises `AttributeError` on `.get`, a non-numeric score raises
`TypeError` on `>`. -/
def bestClassification (classifications : List J) (highest_score : Rat)
    (best_label : J) : Except PyErr J :=
  match classifications with
  | [] => .ok best_label
  | classification :: rest => do
    let scoreJ ← classification.dictGet "score" (J.num 0)
    let score ← (match scoreJ with
      | .num v => Except.ok v
      | .bool v => Except.ok (if v then (1 : Rat) else 0)
      | _ => Except.error (PyErr.typeError "unorderable types"))
    if highest_score < score then do
      let lbl ← classification.dictGet "label" J.null
      bestClassification rest score lbl
    else bestClassification rest highest_score best_label

/-- The sentiment branch of `analyze_content`
(`src/app/services/llm_service.py`, lines 92-107): guard
`sentiment_result and isinstance(sentiment_result, list) and
sentiment_result[0] and isinstance(sentiment_result[0], list)`, pick the
best-scored label, then `Sentiment[best_label.upper()]` with `KeyError`
caught (logged, leaving the sentiment `None`). -/
def processSentimentResult (sentiment_result : Option J) : Except PyErr (Option Sentiment) :=
  match sentiment_result with
  | some (J.arr (first :: _)) =>
    match first with
    | J.arr classifications =>
      if first.truthy then do
        let best_label ← bestClassification classifications (-1) J.null
        if best_label.truthy then
          match best_label with
          | .str lbl => .ok (sentimentMember (pyUpper lbl))
          | _ => .error (.attributeError "upper")
        else .ok none
      else .ok none
    | _ => .ok none
  | _ => .ok none

/-- `analyze_content` (`src/app/services/llm_service.py`, lines 58-110).
The two `query_model(...)` calls only build coroutines; the next statement,
`await httpx.gather(summarization_task, sentiment_task)`, accesses the
non-existent module attribute `httpx.gather` and raises `AttributeError`
before either coroutine runs.  The guarded branch is the would-be
behavior if such an attribute existed: await both results, then apply the
two processing branches. -/
def analyze_content (pb : String → J → ProviderBehavior) (raw_text : String) :
    Except PyErr (Option J × Option Sentiment) :=
  if httpxModuleAttrNames.contains "gather" then do
    let summary_result ← query_model pb SUMMARIZATION_MODEL (summaryPayload raw_text)
    let sentiment_result ← query_model pb SENTIMENT_MODEL (sentimentPayload raw_text)
    let summary ← processSummaryResult summary_result
    let sentiment ← processSentimentResult sentiment_result
    .ok (summary, sentiment)
  else .error (.attributeError "gather")

/-- A row of the `contents` table (`src/app/models/content.py`).  The
`summary` column receives whatever JSON value `analyze_content` extracted;
the `sentiment` column receives the string `sentiment.value` that
`create_content` binds (`src/app/api/v1.py`, line 152). -/
structure ContentRow where
  id : Nat
  raw_content : String
  summary : Option J := none
  sentiment : Option String := none
  created_at : Nat := 0
  owner_id : Nat

/-- The content store: the `contents` table plus its auto-increment counter. -/
structure ContentStore where
  rows : List ContentRow
  nextId : Nat

/-- `create_content` (`src/app/api/v1.py`, lines 130-160): insert and commit
the row (null `summary`/`sentiment`), then `await analyze_content(...)` —
an exception there escapes the handler with the row already committed —
and, when either result is non-null, commit the merged row. -/
def create_content (pb : String → J → ProviderBehavior) (store : ContentStore)
    (current_user : UserRow) (raw_content : String) (now : Nat) :
    Except ApiError ContentRow × ContentStore :=
  let new_content : ContentRow :=
    { id := store.nextId, raw_content := raw_content, summary := none,
      sentiment := none, created_at := now, owner_id := current_user.id }
  match analyze_content pb raw_content with
  | .error e =>
    (.error (.unhandled e), ⟨store.rows ++ [new_content], store.nextId + 1⟩)
  | .ok (summary, sentiment) =>
    if summary.isSome || sentiment.isSome then
      let updated : ContentRow :=
        { new_content with summary := summary,
                           sentiment := sentiment.map Sentiment.value }
      (.ok updated, ⟨store.rows ++ [updated], store.nextId + 1⟩)
    else (.ok new_content, ⟨store.rows ++ [new_content], store.nextId + 1⟩)

/-- The `HTTPException(404, ...)` shared by `read_content_by_id` and
`delete_content` (`src/app/api/v1.py`, lines 193-196 and 216-219). -/
def contentNotFound : ApiError :=
  .http 404 "Content not found or you do not own this content"

/-- `read_contents` (`src/app/api/v1.py`, lines 163-176): all rows whose
`owner_id` equals the authenticated user's id. -/
def read_contents (rows : List ContentRow) (current_user : UserRow) : List ContentRow :=
  rows.filter (fun c => c.owner_id == current_user.id)

/-- `read_content_by_id` (`src/app/api/v1.py`, lines 179-199): the query
filters on `id` *and* `owner_id`; an empty result — whether the id is
absent or the row belongs to someone else — raises the same 404. -/
def read_content_by_id (rows : List ContentRow) (content_id : Nat)
    (current_user : UserRow) : Except ApiError ContentRow :=
  match rows.find? (fun c => c.id == content_id && c.owner_id == current_user.id) with
  | none => .error contentNotFound
  | some content => .ok content

/-- `delete_content` (`src/app/api/v1.py`, lines 202-225): same
owner-scoped query; on a hit, delete that row and answer 204 (here `.ok ()`
with the updated table); otherwise the same 404 with the table unchanged. -/
def delete_content (rows : List ContentRow) (content_id : Nat)
    (current_user : UserRow) : Except ApiError Unit × List ContentRow :=
  match rows.find? (fun c => c.id == content_id && c.owner_id == current_user.id) with
  | none => (.error contentNotFound, rows)
  | some _ =>
    (.ok (), rows.eraseP (fun c => c.id == content_id && c.owner_id == current_user.id))

/-- The fields of the `UserCreate` pydantic schema
(`src/app/schemas/user.py`, lines 7-10): the registration/login *input*
(email and plaintext password). -/
def userCreateFields : List String := ["email", "password"]

/-- The fields of the `UserPublic` pydantic schema
(`src/app/schemas/user.py`, lines 16-27), documented there as the schema
for data returned after signup, deliberately excluding sensitive fields. -/
def userPublicFields : List String := ["id", "email", "is_active", "created_at"]

/-- The response schema the `/signup` route actually declares:
`@router.post("/signup", response_model=UserCreate, ...)`
(`src/app/api/v1.py`, line 71). -/
def signupResponseModelFields : List String := userCreateFields

/-- The attribute names of a `User` ORM instance (`src/app/models/user.py`):
there is no `password` attribute, only `hashed_password`. -/
def userModelAttrNames : List String :=
  ["id", "email", "hashed_password", "is_active", "created_at"]

/-- The attributes of a concrete `User` row, as strings (ids and booleans
rendered), in the order declared by the model. -/
def UserRow.attrs (u : UserRow) : List (String × String) :=
  [("id", pyStrOfNat u.id), ("email", u.email),
   ("hashed_password", u.hashed_password),
   ("is_active", if u.is_active then "True" else "False"),
   ("created_at", pyStrOfNat u.created_at)]

/-- Serializing an object against a response schema: every schema field
must be supplied by an attribute of the object (this is already generous
to the code — pydantic additionally refuses to read attributes of a
non-dict object at all without `from_attributes`, which `UserCreate` does
not set). -/
def serializeResponse (fields : List String) (attrs : List (String × String)) :
    Except String (List (String × String)) :=
  match fields with
  | [] => .ok []
  | f :: rest =>
    match attrs.lookup f with
    | none => .error f
    | some v => do
      let tail ← serializeResponse rest attrs
      .ok ((f, v) :: tail)

/-! ### Helper lemmas -/

theorem one_le_length_charUtf8 (c : Char) : 1 ≤ (charUtf8 c).length := by
  unfold charUtf8
  dsimp only
  split
  · simp
  · split
    · simp
    · split <;> simp

theorem length_le_length_pyEncodeUtf8 (s : PyStr) : s.length ≤ (pyEncodeUtf8 s).length := by
  induction s with
  | nil => simp [pyEncodeUtf8]
  | cons c cs ih =>
    have := one_le_length_charUtf8 c
    simp only [pyEncodeUtf8, List.map_cons, List.flatten_cons, List.length_append,
      List.length_cons] at ih ⊢
    omega

theorem pyEncodeUtf8_append (a b : PyStr) :
    pyEncodeUtf8 (a ++ b) = pyEncodeUtf8 a ++ pyEncodeUtf8 b := by
  simp [pyEncodeUtf8]

/-- Key fact behind password round-tripping: truncating a password to its
first 72 characters does not change the first 72 bytes of its UTF-8
encoding, hence not the bytes fed to bcrypt. -/
theorem passlibBcryptInput_get_password_hash_arg (p : PyStr) :
    passlibBcryptInput (get_password_hash_arg p) = passlibBcryptInput p := by
  unfold get_password_hash_arg
  split
  case isFalse => rfl
  case isTrue hlen =>
    by_cases hp : p.length ≤ 72
    · rw [List.take_of_length_le hp]
    · push_neg at hp
      unfold passlibBcryptInput
      conv_rhs => rw [← List.take_append_drop 72 p]
      rw [pyEncodeUtf8_append]
      rw [List.take_append_of_le_length]
      have h1 := length_le_length_pyEncodeUtf8 (p.take 72)
      have h2 : (p.take 72).length = 72 := by
        simp only [List.length_take]
        omega
      omega

/-- A freshly registered password always verifies against its stored hash,
even past the 72-byte bcrypt limit (both sides reduce to the same first 72
UTF-8 bytes). -/
theorem verify_password_get_password_hash (bc : List Nat → String) (p : PyStr) :
    verify_password bc p (get_password_hash bc p) = true := by
  unfold verify_password pwd_context_verify get_password_hash pwd_context_hash
  rw [passlibBcryptInput_get_password_hash_arg]
  simp

theorem isDigit_ofNat_48_add (m : Nat) (h : m < 10) :
    (Char.ofNat (48 + m)).isDigit = true := by
  interval_cases m <;> decide

theorem toNat_ofNat_48_add (m : Nat) (h : m < 10) :
    (Char.ofNat (48 + m)).toNat = 48 + m := by
  interval_cases m <;> decide

theorem decDigits_spec (n : Nat) :
    decDigits n ≠ [] ∧ (decDigits n).all Char.isDigit = true ∧
    ∀ acc : Nat,
      (decDigits n).foldl (fun m c => m * 10 + (c.toNat - 48)) acc
        = acc * 10 ^ (decDigits n).length + n := by
  induction n using Nat.strong_induction_on with
  | _ n ih =>
    rw [decDigits]
    split
    case isTrue h =>
      refine ⟨by simp, by simpa using isDigit_ofNat_48_add n h, ?_⟩
      intro acc
      simp [List.foldl, toNat_ofNat_48_add n h]
    case isFalse h =>
      have hdiv : n / 10 < n := Nat.div_lt_self (by omega) (by omega)
      obtain ⟨ih1, ih2, ih3⟩ := ih (n / 10) hdiv
      have hmod : n % 10 < 10 := Nat.mod_lt _ (by omega)
      refine ⟨by simp, ?_, ?_⟩
      · simp only [List.all_append, ih2, Bool.true_and, List.all_cons,
          List.all_nil, Bool.and_true]
        exact isDigit_ofNat_48_add _ hmod
      · intro acc
        rw [List.foldl_append, ih3 acc]
        simp only [List.foldl, List.length_append, List.length_cons,
          List.length_nil, toNat_ofNat_48_add _ hmod]
        have : acc * 10 ^ ((decDigits (n / 10)).length + (0 + 1))
            = acc * 10 ^ (decDigits (n / 10)).length * 10 := by ring
        rw [this]
        omega

/-- Python's `int(str(n)) == n` for the decimal numerals this service puts
in the JWT `sub` claim. -/
theorem pyIntNat_pyStrOfNat (n : Nat) : pyIntNat (pyStrOfNat n) = some n := by
  obtain ⟨h1, h2, h3⟩ := decDigits_spec n
  unfold pyIntNat pyStrOfNat
  rw [if_pos ⟨h1, by simpa using h2⟩]
  have := h3 0
  simp only [Nat.zero_mul, Nat.zero_add] at this
  simp [this]

/-- The httpx module exports no `gather` attribute. -/
theorem httpx_no_gather : httpxModuleAttrNames.contains "gather" = false := by decide

/-- The `Settings` class declares no `HUGGINGFACE_API_KEY` field. -/
theorem settings_no_hf_key : settingsAttrNames.contains "HUGGINGFACE_API_KEY" = false := by
  decide

/-- `analyze_content` unconditionally raises `AttributeError` at
`await httpx.gather(...)`, whatever the provider would have answered. -/
theorem analyze_content_always_raises (pb : String → J → ProviderBehavior)
    (raw_text : String) :
    analyze_content pb raw_text = .error (.attributeError "gather") := by
  unfold analyze_content
  rw [httpx_no_gather]
  rfl

/-! ### Claim theorems -/

/-- Claim C1 (code_bug evidence): the submitted text is persisted exactly,
with `summary = null` and `sentiment = null` — but for *every* provider
behavior the submit request then fails with an uncaught `AttributeError`
(`httpx.gather` does not exist), so `create_content` never returns the
saved record as a success, contradicting the claim's "never an error". -/
theorem create_content_persists_raw_but_always_errors
    (pb : String → J → ProviderBehavior) (store : ContentStore)
    (current_user : UserRow) (raw_content : String) (now : Nat) :
    create_content pb store current_user raw_content now
      = (.error (.unhandled (.attributeError "gather")),
         ⟨store.rows ++
            [{ id := store.nextId, raw_content := raw_content, summary := none,
               sentiment := none, created_at := now,
               owner_id := current_user.id }],
          store.nextId + 1⟩) := by
  simp only [create_content, analyze_content_always_raises]

/-- Claim C2 (code_bug evidence): `analyze_content` is not total in the
claimed sense — for every input string and every provider behavior it
raises `AttributeError` to its caller (at `await httpx.gather(...)`)
instead of returning a `(summary, sentiment)` pair. -/
theorem analyze_content_raises_for_every_input
    (pb : String → J → ProviderBehavior) (raw_text : String) :
    analyze_content pb raw_text = .error (.attributeError "gather") :=
  analyze_content_always_raises pb raw_text

/-- Claim C6 (code_bug evidence): with the provider answering the
recognized sentiment label `"positive"` (nested list-of-lists shape, score
0.99), the stored row still has `sentiment = null` and the request errors:
the enrichment result is never processed because `analyze_content` raises
at `httpx.gather` first. -/
theorem recognized_label_still_stores_null_sentiment :
    create_content
        (fun _ _ => ProviderBehavior.ok
          (J.arr [J.arr [J.obj [("label", J.str "positive"),
                                ("score", J.num (99 / 100))]]]))
        ⟨[], 1⟩ { id := 1, email := "a@b.c", hashed_password := "h" }
        "Great product, very satisfied" 5
      = (.error (.unhandled (.attributeError "gather")),
         ⟨[{ id := 1, raw_content := "Great product, very satisfied",
             summary := none, sentiment := none, created_at := 5,
             owner_id := 1 }], 2⟩) := by
  rfl

/-- Claim C4 (code_bug evidence): `/signup` declares
`response_model=UserCreate` — the credentials *input* schema, whose fields
are `email` and `password` — instead of `UserPublic` (whose own docstring
says it is the post-signup response schema).  The created ORM user cannot
even be serialized against it (it has no `password` attribute), so no
`PublicUser` view is ever returned. -/
theorem signup_response_schema_is_not_public_user (bc : List Nat → String)
    (password : PyStr) (now : Nat) :
    ∃ (newUser : UserRow) (store2 : CredentialStore),
      register_user bc ⟨[], 1⟩ "alice@example.com" password now
        = (.ok newUser, store2) ∧
      serializeResponse signupResponseModelFields newUser.attrs
        = .error "password" ∧
      "password" ∈ signupResponseModelFields ∧
      signupResponseModelFields ≠ userPublicFields := by
  refine ⟨_, _, rfl, rfl, by decide, by decide⟩

/-- Claim C3: when every row with the requested id belongs to `owner` and
the authenticated user is a different user, both `get` and `delete` yield
the same 404 as for an id that exists nowhere at all; `delete` leaves the
table unchanged. -/
theorem cross_owner_get_delete_not_found (rows : List ContentRow)
    (owner : Nat) (current_user : UserRow) (content_id : Nat)
    (hOwn : ∀ c ∈ rows, c.id = content_id → c.owner_id = owner)
    (hne : current_user.id ≠ owner) :
    read_content_by_id rows content_id current_user = .error contentNotFound ∧
    delete_content rows content_id current_user = (.error contentNotFound, rows) ∧
    read_content_by_id [] content_id current_user = .error contentNotFound := by
  have hnone :
      rows.find? (fun c => c.id == content_id && c.owner_id == current_user.id)
        = none := by
    rw [List.find?_eq_none]
    intro c hc
    simp only [Bool.and_eq_true, beq_iff_eq, not_and]
    intro hid hown
    have := hOwn c hc hid
    omega
  refine ⟨?_, ?_, rfl⟩ <;> simp [read_content_by_id, delete_content, hnone]

/-- Witness for `cross_owner_get_delete_not_found`: one row with id 1 owned
by user 7, accessed by user 8. -/
theorem cross_owner_get_delete_not_found_witness :
    (∀ c ∈ [({ id := 1, raw_content := "t", owner_id := 7 } : ContentRow)],
        c.id = 1 → c.owner_id = 7) ∧
    ({ id := 8, email := "eve@example.com", hashed_password := "h" } : UserRow).id ≠ 7 ∧
    read_content_by_id [{ id := 1, raw_content := "t", owner_id := 7 }] 1
        { id := 8, email := "eve@example.com", hashed_password := "h" }
      = .error contentNotFound ∧
    delete_content [{ id := 1, raw_content := "t", owner_id := 7 }] 1
        { id := 8, email := "eve@example.com", hashed_password := "h" }
      = (.error contentNotFound, [{ id := 1, raw_content := "t", owner_id := 7 }]) := by
  have h1 : ∀ c ∈ [({ id := 1, raw_content := "t", owner_id := 7 } : ContentRow)],
      c.id = 1 → c.owner_id = 7 := by
    intro c hc
    simp only [List.mem_singleton] at hc
    subst hc
    intro _
    rfl
  have h2 : ({ id := 8, email := "eve@example.com", hashed_password := "h" } : UserRow).id ≠ 7 := by
    decide
  have main := cross_owner_get_delete_not_found
    [{ id := 1, raw_content := "t", owner_id := 7 }] 7
    { id := 8, email := "eve@example.com", hashed_password := "h" } 1 h1 h2
  exact ⟨h1, h2, main.1, main.2.1⟩

/-- Claim C5: a login attempt with a registered email but a wrong password
and a login attempt with an unregistered email raise the literally same
`HTTPException(401, "Incorrect email or password")`. -/
theorem login_failures_indistinguishable (bc : List Nat → String)
    (settings : SettingsV) (users : List UserRow) (e1 : String) (p1 : PyStr)
    (e2 : String) (p2 : PyStr) (u : UserRow) (now1 now2 : Nat)
    (hfound : users.find? (fun v => v.email == e1) = some u)
    (hwrong : verify_password bc p1 u.hashed_password = false)
    (hunknown : users.find? (fun v => v.email == e2) = none) :
    login_for_access_token bc settings users e1 p1 now1
      = .error (.http 401 "Incorrect email or password") ∧
    login_for_access_token bc settings users e2 p2 now2
      = .error (.http 401 "Incorrect email or password") := by
  constructor
  · simp [login_for_access_token, hfound, hwrong]
  · simp [login_for_access_token, hunknown]

/-- Witness for `login_failures_indistinguishable`: one registered user
`alice@example.com` with stored hash `"stored"`, a digest function that
never produces `"stored"`, and the unknown email `bob@example.com`. -/
theorem login_failures_indistinguishable_witness :
    ([({ id := 1, email := "alice@example.com", hashed_password := "stored" } : UserRow)].find?
        (fun v => v.email == "alice@example.com")
      = some { id := 1, email := "alice@example.com", hashed_password := "stored" }) ∧
    verify_password (fun _ => "other") ['p', 'w']
        ({ id := 1, email := "alice@example.com", hashed_password := "stored" } : UserRow).hashed_password
      = false ∧
    ([({ id := 1, email := "alice@example.com", hashed_password := "stored" } : UserRow)].find?
        (fun v => v.email == "bob@example.com") = none) ∧
    login_for_access_token (fun _ => "other") ⟨"secret", 30⟩
        [{ id := 1, email := "alice@example.com", hashed_password := "stored" }]
        "alice@example.com" ['p', 'w'] 0
      = .error (.http 401 "Incorrect email or password") ∧
    login_for_access_token (fun _ => "other") ⟨"secret", 30⟩
        [{ id := 1, email := "alice@example.com", hashed_password := "stored" }]
        "bob@example.com" ['p', 'w'] 3
      = .error (.http 401 "Incorrect email or password") := by
  have main := login_failures_indistinguishable (fun _ => "other") ⟨"secret", 30⟩
    [{ id := 1, email := "alice@example.com", hashed_password := "stored" }]
    "alice@example.com" ['p', 'w'] "bob@example.com" ['p', 'w']
    { id := 1, email := "alice@example.com", hashed_password := "stored" } 0 3
    rfl rfl rfl
  exact ⟨rfl, rfl, rfl, main.1, main.2⟩

/-- Claim C9: registering an email that is already present always raises
`HTTPException(400, "Email already registered.")` before anything is
hashed or inserted, whatever the password, and the credential store is
returned unchanged. -/
theorem register_duplicate_email_conflict (bc : List Nat → String)
    (store : CredentialStore) (email : String) (password : PyStr) (now : Nat)
    (u : UserRow)
    (hdup : store.users.find? (fun v => v.email == email) = some u) :
    register_user bc store email password now
      = (.error (.http 400 "Email already registered."), store) := by
  simp [register_user, hdup]

/-- Witness for `register_duplicate_email_conflict`. -/
theorem register_duplicate_email_conflict_witness :
    ([({ id := 1, email := "alice@example.com", hashed_password := "stored" } : UserRow)].find?
        (fun v => v.email == "alice@example.com")
      = some { id := 1, email := "alice@example.com", hashed_password := "stored" }) ∧
    register_user (fun _ => "digest")
        ⟨[{ id := 1, email := "alice@example.com", hashed_password := "stored" }], 2⟩
        "alice@example.com" ['x'] 9
      = (.error (.http 400 "Email already registered."),
         ⟨[{ id := 1, email := "alice@example.com", hashed_password := "stored" }], 2⟩) :=
  ⟨rfl, register_duplicate_email_conflict (fun _ => "digest")
    ⟨[{ id := 1, email := "alice@example.com", hashed_password := "stored" }], 2⟩
    "alice@example.com" ['x'] 9
    { id := 1, email := "alice@example.com", hashed_password := "stored" } rfl⟩

/-- Claim C10: for passwords whose UTF-8 encoding exceeds 72 bytes,
`get_password_hash` hands `pwd_context.hash` only the first 72 characters,
so two such passwords agreeing on those characters produce the identical
hash-primitive input (and identical stored credential under the same
digest), while `verify_password` is definitionally `pwd_context.verify`
applied to the untruncated password. -/
theorem long_password_truncation_collision (bc : List Nat → String)
    (p1 p2 : PyStr)
    (h1 : 72 < (pyEncodeUtf8 p1).length) (h2 : 72 < (pyEncodeUtf8 p2).length)
    (hpre : p1.take 72 = p2.take 72) :
    get_password_hash_arg p1 = p1.take 72 ∧
    get_password_hash_arg p1 = get_password_hash_arg p2 ∧
    get_password_hash bc p1 = get_password_hash bc p2 ∧
    verify_password bc p1 (get_password_hash bc p1)
      = pwd_context_verify bc p1 (get_password_hash bc p1) := by
  have e1 : get_password_hash_arg p1 = p1.take 72 := by
    unfold get_password_hash_arg
    rw [if_pos h1]
  have e2 : get_password_hash_arg p2 = p2.take 72 := by
    unfold get_password_hash_arg
    rw [if_pos h2]
  have e3 : get_password_hash_arg p1 = get_password_hash_arg p2 := by
    rw [e1, e2, hpre]
  refine ⟨e1, e3, ?_, rfl⟩
  unfold get_password_hash
  rw [e3]

/-- Witness for `long_password_truncation_collision`: 73 copies of `a`
versus 72 copies of `a` followed by `b` — ASCII, hence 73 bytes each. -/
theorem long_password_truncation_collision_witness :
    72 < (pyEncodeUtf8 (List.replicate 73 'a')).length ∧
    72 < (pyEncodeUtf8 (List.replicate 72 'a' ++ ['b'])).length ∧
    (List.replicate 73 'a').take 72 = (List.replicate 72 'a' ++ ['b']).take 72 ∧
    (get_password_hash_arg (List.replicate 73 'a') = (List.replicate 73 'a').take 72 ∧
     get_password_hash_arg (List.replicate 73 'a')
       = get_password_hash_arg (List.replicate 72 'a' ++ ['b']) ∧
     get_password_hash (fun _ => "digest") (List.replicate 73 'a')
       = get_password_hash (fun _ => "digest") (List.replicate 72 'a' ++ ['b']) ∧
     verify_password (fun _ => "digest") (List.replicate 73 'a')
         (get_password_hash (fun _ => "digest") (List.replicate 73 'a'))
       = pwd_context_verify (fun _ => "digest") (List.replicate 73 'a')
         (get_password_hash (fun _ => "digest") (List.replicate 73 'a'))) := by
  refine ⟨by decide, by decide, by decide, ?_⟩
  exact long_password_truncation_collision (fun _ => "digest")
    (List.replicate 73 'a') (List.replicate 72 'a' ++ ['b'])
    (by decide) (by decide) (by decide)

/-- Claim C7: with a fresh email (and the auto-increment id genuinely
fresh), `register_user` succeeds, `login_for_access_token` with the same
credentials then succeeds — including past the 72-byte bcrypt limit, since
hash and verify reduce to the same 72 leading UTF-8 bytes — and the issued
token, resolved by `get_current_user` before expiry, yields exactly the
registered user. -/
theorem register_then_login_token_resolves (bc : List Nat → String)
    (settings : SettingsV) (store : CredentialStore) (email : String)
    (password : PyStr) (regTime loginTime resolveTime : Nat)
    (hEmail : ∀ u ∈ store.users, u.email ≠ email)
    (hId : ∀ u ∈ store.users, u.id ≠ store.nextId)
    (hTime : resolveTime < loginTime + settings.ACCESS_TOKEN_EXPIRE_MINUTES * 60) :
    ∃ (newUser : UserRow) (store2 : CredentialStore) (tok : Jwt),
      register_user bc store email password regTime = (.ok newUser, store2) ∧
      newUser.id = store.nextId ∧
      newUser.is_active = true ∧
      login_for_access_token bc settings store2.users email password loginTime
        = .ok tok ∧
      get_current_user store2.users settings (.token tok) resolveTime
        = .ok newUser := by
  have hfindEmail : store.users.find? (fun u => u.email == email) = none := by
    rw [List.find?_eq_none]
    intro u hu
    simpa using hEmail u hu
  have hfindId : store.users.find? (fun u => u.id == store.nextId) = none := by
    rw [List.find?_eq_none]
    intro u hu
    simpa using hId u hu
  refine ⟨{ id := store.nextId, email := email,
            hashed_password := get_password_hash bc password,
            is_active := true, created_at := regTime },
          ⟨store.users ++
            [{ id := store.nextId, email := email,
               hashed_password := get_password_hash bc password,
               is_active := true, created_at := regTime }], store.nextId + 1⟩,
          create_access_token settings (some (pyStrOfNat store.nextId))
            loginTime (settings.ACCESS_TOKEN_EXPIRE_MINUTES * 60),
          ?_, rfl, rfl, ?_, ?_⟩
  · unfold register_user
    rw [hfindEmail]
  · unfold login_for_access_token
    rw [List.find?_append, hfindEmail]
    simp [verify_password_get_password_hash]
  · have hdec : jwt_decode
        (.token (create_access_token settings (some (pyStrOfNat store.nextId))
          loginTime (settings.ACCESS_TOKEN_EXPIRE_MINUTES * 60)))
        settings.SECRET_KEY resolveTime
        = some (some (pyStrOfNat store.nextId)) := by
      simp [jwt_decode, create_access_token, hTime]
    unfold get_current_user
    rw [hdec]
    simp only [pyIntNat_pyStrOfNat, List.find?_append, hfindId, Option.none_or]
    simp [List.find?]

/-- Witness for `register_then_login_token_resolves`: empty store, email
`alice@example.com`, password `pw`, registration at time 0, login at 1000,
resolution at 1001 with a 30-minute token lifetime. -/
theorem register_then_login_token_resolves_witness :
    (∀ u ∈ (⟨[], 1⟩ : CredentialStore).users, u.email ≠ "alice@example.com") ∧
    (∀ u ∈ (⟨[], 1⟩ : CredentialStore).users, u.id ≠ (⟨[], 1⟩ : CredentialStore).nextId) ∧
    (1001 < 1000 + (⟨"secret", 30⟩ : SettingsV).ACCESS_TOKEN_EXPIRE_MINUTES * 60) ∧
    (∃ (newUser : UserRow) (store2 : CredentialStore) (tok : Jwt),
      register_user (fun _ => "digest") ⟨[], 1⟩ "alice@example.com" ['p', 'w'] 0
        = (.ok newUser, store2) ∧
      newUser.id = (⟨[], 1⟩ : CredentialStore).nextId ∧
      newUser.is_active = true ∧
      login_for_access_token (fun _ => "digest") ⟨"secret", 30⟩ store2.users
          "alice@example.com" ['p', 'w'] 1000 = .ok tok ∧
      get_current_user store2.users ⟨"secret", 30⟩ (.token tok) 1001
        = .ok newUser) := by
  refine ⟨by simp, by simp, by decide, ?_⟩
  exact register_then_login_token_resolves (fun _ => "digest") ⟨"secret", 30⟩
    ⟨[], 1⟩ "alice@example.com" ['p', 'w'] 0 1000 1001
    (by simp) (by simp) (by decide)

/-- Claim C8 counterexample: a valid token for an inactive account yields
`HTTPException(400, "Inactive user")`, while a malformed token yields
`HTTPException(401, "Could not validate credentials")` — two different
authentication-failure outcomes, refuting "the same single Unauthenticated
outcome". -/
theorem inactive_account_outcome_differs_counterexample :
    get_current_user
        [{ id := 1, email := "a@b.c", hashed_password := "h",
           is_active := false, created_at := 0 }]
        ⟨"k", 30⟩ (.token ⟨some "1", 100, "k"⟩) 0
      = .error (.http 400 "Inactive user") ∧
    get_current_user
        [{ id := 1, email := "a@b.c", hashed_password := "h",
           is_active := false, created_at := 0 }]
        ⟨"k", 30⟩ (.malformed "zzz") 0
      = .error credentials_exception ∧
    (Except.error (.http 400 "Inactive user") : Except ApiError UserRow)
      ≠ .error credentials_exception := by
  refine ⟨rfl, rfl, ?_⟩
  intro h
  injection h with h2
  revert h2
  decide

/-- Claim C8 as amended: undecodable tokens (malformed, expired, wrong
signature), tokens without a `sub` claim and tokens whose subject matches
no user all yield the identical 401 `credentials_exception`; but a valid
token for an inactive account yields the distinct outcome
`HTTPException(400, "Inactive user")`. -/
theorem auth_failures_except_inactive_uniform (users : List UserRow)
    (settings : SettingsV) (now : Nat) (cred : Credential)
    (tokNoSub tokUnknown tokInactive : Jwt) (s2 : String) (uid2 : Nat)
    (u : UserRow)
    (hbad : jwt_decode cred settings.SECRET_KEY now = none)
    (hnosub : jwt_decode (.token tokNoSub) settings.SECRET_KEY now = some none)
    (hunk : jwt_decode (.token tokUnknown) settings.SECRET_KEY now = some (some s2))
    (hint2 : pyIntNat s2 = some uid2)
    (hfind2 : users.find? (fun v => v.id == uid2) = none)
    (hinact : jwt_decode (.token tokInactive) settings.SECRET_KEY now
      = some (some (pyStrOfNat u.id)))
    (hfound : users.find? (fun v => v.id == u.id) = some u)
    (hinactive : u.is_active = false) :
    get_current_user users settings cred now = .error credentials_exception ∧
    get_current_user users settings (.token tokNoSub) now
      = .error credentials_exception ∧
    get_current_user users settings (.token tokUnknown) now
      = .error credentials_exception ∧
    get_current_user users settings (.token tokInactive) now
      = .error (.http 400 "Inactive user") ∧
    (Except.error credentials_exception : Except ApiError UserRow)
      ≠ .error (.http 400 "Inactive user") := by
  refine ⟨?_, ?_, ?_, ?_, ?_⟩
  · unfold get_current_user
    rw [hbad]
  · unfold get_current_user
    rw [hnosub]
  · unfold get_current_user
    rw [hunk]
    simp only [hint2, hfind2]
  · unfold get_current_user
    rw [hinact]
    simp only [pyIntNat_pyStrOfNat, hfound, hinactive]
    simp
  · intro h
    injection h with h2
    revert h2
    decide

/-- Witness for `auth_failures_except_inactive_uniform`: one inactive user
with id 1, a malformed credential, a token without `sub`, a token with the
unknown subject `"5"`, and a valid token for the inactive user. -/
theorem auth_failures_except_inactive_uniform_witness :
    (jwt_decode (.malformed "zzz") "k" 0 = none) ∧
    (jwt_decode (.token ⟨none, 100, "k"⟩) "k" 0 = some none) ∧
    (jwt_decode (.token ⟨some "5", 100, "k"⟩) "k" 0 = some (some "5")) ∧
    (pyIntNat "5" = some 5) ∧
    ([({ id := 1, email := "a@b.c", hashed_password := "h", is_active := false,
         created_at := 0 } : UserRow)].find? (fun v => v.id == 5) = none) ∧
    (jwt_decode (.token ⟨some (pyStrOfNat 1), 100, "k"⟩) "k" 0
      = some (some (pyStrOfNat 1))) ∧
    ([({ id := 1, email := "a@b.c", hashed_password := "h", is_active := false,
         created_at := 0 } : UserRow)].find? (fun v => v.id == 1)
      = some { id := 1, email := "a@b.c", hashed_password := "h",
               is_active := false, created_at := 0 }) ∧
    get_current_user
        [{ id := 1, email := "a@b.c", hashed_password := "h",
           is_active := false, created_at := 0 }]
        ⟨"k", 30⟩ (.token ⟨some (pyStrOfNat 1), 100, "k"⟩) 0
      = .error (.http 400 "Inactive user") := by
  have main := auth_failures_except_inactive_uniform
    [{ id := 1, email := "a@b.c", hashed_password := "h", is_active := false,
       created_at := 0 }]
    ⟨"k", 30⟩ 0 (.malformed "zzz") ⟨none, 100, "k"⟩ ⟨some "5", 100, "k"⟩
    ⟨some (pyStrOfNat 1), 100, "k"⟩ "5" 5
    { id := 1, email := "a@b.c", hashed_password := "h", is_active := false,
      created_at := 0 }
    rfl rfl rfl rfl rfl rfl rfl rfl
  exact ⟨rfl, rfl, rfl, rfl, rfl, rfl, rfl, main.2.2.2.1⟩
